import Mathlib

/-!
Verification development for the TempSensor Arduino driver library
(single header TempSensor.h declaring the classes TempSensor, LM75B,
PCT2075, P3T1755 and P3T1085).

The header declares the class hierarchy, the register-name enums, the
mode enum and the constructor default addresses; those are embedded here
directly from TempSensor.h.  The method bodies (temp, read, thresholds,
os_mode, clear) live in a translation unit that is not part of the
sources at hand, so they are modelled from the specification text; each
such definition carries a doc comment starting with
Modelled from the spec.
-/

/-! ## Class hierarchy, register enums and constructor defaults
    (taken directly from TempSensor.h) -/

/-- Classes declared in TempSensor.h. -/
inductive Variant
  | TempSensor
  | LM75B
  | PCT2075
  | P3T1755
  | P3T1085
deriving DecidableEq

/-- Direct base class of each class, from the class-head lines of
TempSensor.h: class LM75B : public TempSensor (line 59),
class PCT2075 : public LM75B (line 212), class P3T1755 : public LM75B
(line 331), class P3T1085 : public P3T1755 (line 450). -/
def parent : Variant → Option Variant
  | .TempSensor => none
  | .LM75B      => some .TempSensor
  | .PCT2075    => some .LM75B
  | .P3T1755    => some .LM75B
  | .P3T1085    => some .P3T1755

/-- Register names appearing in the reg_num enums of TempSensor.h. -/
inductive RegName
  | Temp
  | Conf
  | Thyst
  | Tos
  | Tidle
  | T_LOW
  | T_HIGH
deriving DecidableEq

/-- The reg_num enum of each class, from TempSensor.h (lines 63-68,
216-222, 335-340).  TempSensor declares no registers; P3T1085 declares
no enum of its own and inherits the one of its base class P3T1755. -/
def reg_enum : Variant → List RegName
  | .TempSensor => []
  | .LM75B      => [.Temp, .Conf, .Thyst, .Tos]
  | .PCT2075    => [.Temp, .Conf, .Thyst, .Tos, .Tidle]
  | .P3T1755    => [.Temp, .Conf, .T_LOW, .T_HIGH]
  | .P3T1085    => [.Temp, .Conf, .T_LOW, .T_HIGH]

/-- Register index of Temp (enum ordinal 0 in every reg_num enum). -/
def LM75B.Temp : Nat := 0

/-- Register index of Conf (enum ordinal 1). -/
def LM75B.Conf : Nat := 1

/-- Register index of Thyst (enum ordinal 2). -/
def LM75B.Thyst : Nat := 2

/-- Register index of Tos (enum ordinal 3). -/
def LM75B.Tos : Nat := 3

/-- Register index of Tidle in the PCT2075 enum (ordinal 4). -/
def PCT2075.Tidle : Nat := 4

/-- Register index of T_LOW in the P3T1755 enum (ordinal 2). -/
def P3T1755.T_LOW : Nat := 2

/-- Register index of T_HIGH in the P3T1755 enum (ordinal 3). -/
def P3T1755.T_HIGH : Nat := 3

/-- Default value of the i2c_address argument of the address-only
constructor of each class, from TempSensor.h lines 74, 228, 346 and
457: LM75B and PCT2075 use 0x90 >> 1, P3T1755 uses 0x98 >> 1 and
P3T1085 uses 0x90 >> 1.  The abstract TempSensor constructor has no
default. -/
def default_address : Variant → Option Nat
  | .TempSensor => none
  | .LM75B      => some (0x90 >>> 1)
  | .PCT2075    => some (0x90 >>> 1)
  | .P3T1755    => some (0x98 >>> 1)
  | .P3T1085    => some (0x90 >>> 1)

/-- Default value of the i2c_address argument of the TwoWire-reference
constructor of each class, from TempSensor.h lines 81, 235, 353 and
464: every one of them uses 0x90 >> 1. -/
def default_address_wire : Variant → Option Nat
  | .TempSensor => none
  | .LM75B      => some (0x90 >>> 1)
  | .PCT2075    => some (0x90 >>> 1)
  | .P3T1755    => some (0x90 >>> 1)
  | .P3T1085    => some (0x90 >>> 1)

/-- The mode enum of TempSensor.h lines 28-31. -/
inductive mode
  | COMPARATOR
  | INTERRUPT
deriving DecidableEq

/-- Numeric value of each mode enum constant (enum ordinals:
COMPARATOR = 0, INTERRUPT = 1). -/
def modeVal : mode → Nat
  | .COMPARATOR => 0
  | .INTERRUPT  => 1

/-! ## Temperature codec (modelled from the spec, section 4.1) -/

/-- A 16-bit raw register value reinterpreted as a two's-complement
signed integer. -/
def toSigned16 (raw : Nat) : Int :=
  if raw < 0x8000 then (raw : Int) else (raw : Int) - 0x10000

/-- Modelled from the spec: the LSB weight of a variant with the given
temperature-field bit width is 2 ^ -(bitwidth - 8): 0.5 degC for 9-bit
fields, 0.0625 degC for 12-bit fields. -/
def lsbWeight (bw : Nat) : ℚ := 1 / (2 ^ (bw - 8))

/-- Modelled from the spec (section 4.1; the translation unit holding
LM75B::temp is not among the sources): decode interprets a raw 16-bit
register value as a two's-complement integer whose bw significant bits
are left-aligned in the register, sign-extends it (arithmetic shift
right by 16 - bw, i.e. floor division) and scales by the LSB weight. -/
def decode (bw : Nat) (raw : Nat) : ℚ :=
  ((toSigned16 raw).fdiv (2 ^ (16 - bw)) : ℚ) * lsbWeight bw

/-- Truncation of a rational toward zero, the rounding the spec allows
for sub-LSB fractions during encoding. -/
def truncTowardZero (q : ℚ) : Int :=
  if 0 ≤ q then ⌊q⌋ else ⌈q⌉

/-- Modelled from the spec (section 4.1): encode divides the Celsius
value by the LSB weight, truncates any sub-LSB fraction toward zero,
left-aligns the field by multiplying by 2 ^ (16 - bw) and wraps into a
16-bit two's-complement register value. -/
def encode (bw : Nat) (t : ℚ) : Nat :=
  ((truncTowardZero (t / lsbWeight bw) * 2 ^ (16 - bw)) % (2 ^ 16 : Int)).toNat

/-- Two's-complement reading of a bw-bit field, stated the way the spec
glossary describes sign extension; used as the reference semantics the
decoder is compared against. -/
def twosComplement (bw field : Nat) : Int :=
  if field < 2 ^ (bw - 1) then (field : Int) else (field : Int) - 2 ^ bw

/-! ## Device state and the facade operations
    (modelled from the spec, sections 4.3 and 4.4) -/

/-- Device register file: register index to raw 16-bit contents. -/
abbrev RegFile := Nat → Nat

/-- A single successful register write. -/
def writeReg (r : RegFile) (idx val : Nat) : RegFile :=
  fun i => if i = idx then val else r i

/-- Modelled from the spec (section 4.3): set_thresholds writes the
encoding of the larger input to the shutdown/high register and the
encoding of the smaller input to the hysteresis/low register, at the
variant's bit width. -/
def set_thresholds (bw tosIdx thystIdx : Nat) (v0 v1 : ℚ) (r : RegFile) : RegFile :=
  writeReg (writeReg r tosIdx (encode bw (max v0 v1))) thystIdx (encode bw (min v0 v1))

/-- LM75B::thresholds: 9-bit encoding into Tos and Thyst. -/
def LM75B.thresholds : ℚ → ℚ → RegFile → RegFile :=
  set_thresholds 9 LM75B.Tos LM75B.Thyst

/-- P3T1755::thresholds: 12-bit encoding into T_HIGH and T_LOW. -/
def P3T1755.thresholds : ℚ → ℚ → RegFile → RegFile :=
  set_thresholds 12 P3T1755.T_HIGH P3T1755.T_LOW

/-- Modelled from the spec (sections 4.3 and 7): the two register
writes of set_thresholds over a transport on which either write may
fail.  A failed write leaves the device registers untouched; a
successful first write is never rolled back; the reported error
identifies the write that failed (1 = first, 2 = second), the first
failure taking precedence. -/
def thresholdsT (fail1 fail2 : Bool) (bw tosIdx thystIdx : Nat)
    (v0 v1 : ℚ) (r : RegFile) : RegFile × Option Nat :=
  let w1 := if fail1 then (r, some 1)
            else (writeReg r tosIdx (encode bw (max v0 v1)), none)
  let w2 := if fail2 then (w1.1, some 2)
            else (writeReg w1.1 thystIdx (encode bw (min v0 v1)), none)
  (w2.1, match w1.2 with
         | some e => some e
         | none   => w2.2)

/-- Modelled from the spec (section 4.3): the read-modify-write of the
mode bit inside a w-bit configuration value: clear the mode bit with a
mask, then OR in the new mode bit. -/
def confWithMode (w bitPos : Nat) (flag : mode) (conf : Nat) : Nat :=
  (conf &&& ((2 ^ w - 1) ^^^ (1 <<< bitPos))) ||| (modeVal flag <<< bitPos)

/-- Modelled from the spec (section 4.3): os_mode reads the Conf
register, updates the mode bit and writes the whole value back. -/
def os_mode (w bitPos : Nat) (flag : mode) (r : RegFile) : RegFile :=
  writeReg r LM75B.Conf (confWithMode w bitPos flag (r LM75B.Conf))

/-- Modelled from the spec (section 4.3): P3T1085::clear reads the Conf
register, reports whether the high-temperature fault flag FH is set and
performs the access sequence that leaves the flag cleared. -/
def clear (w fhBit : Nat) (r : RegFile) : Bool × RegFile :=
  ((r LM75B.Conf).testBit fhBit,
   writeReg r LM75B.Conf ((r LM75B.Conf) &&& ((2 ^ w - 1) ^^^ (1 <<< fhBit))))

/-- Modelled from the spec (section 4.4): temp reads the Temp register
and decodes it at the variant's bit width. -/
def temp (bw : Nat) (r : RegFile) : ℚ :=
  decode bw (r LM75B.Temp)

/-- Modelled from the spec (section 4.4) and the doc comment of
TempSensor::read in TempSensor.h lines 41-47: read simply calls temp. -/
def read (bw : Nat) (r : RegFile) : ℚ :=
  temp bw r

/-! ## Claims decided by the header -/

/-- C6 counterexample: the claim says every high-resolution-family
sensor defaults to address 0x4C, but the P3T1085 address-only
constructor defaults to 0x90 >> 1 = 0x48. -/
theorem p3t1085_default_is_not_4C :
    ¬ (default_address Variant.P3T1085 = some 0x4C) := by
  decide

/-- C6 amended: LM75B and PCT2075 default to 0x48 in both constructors;
P3T1755 defaults to 0x4C in its address-only constructor but to 0x48 in
its TwoWire constructor; P3T1085 defaults to 0x48 in both. -/
theorem default_addresses_per_header :
    default_address Variant.LM75B = some 0x48
    ∧ default_address_wire Variant.LM75B = some 0x48
    ∧ default_address Variant.PCT2075 = some 0x48
    ∧ default_address_wire Variant.PCT2075 = some 0x48
    ∧ default_address Variant.P3T1755 = some 0x4C
    ∧ default_address_wire Variant.P3T1755 = some 0x48
    ∧ default_address Variant.P3T1085 = some 0x48
    ∧ default_address_wire Variant.P3T1085 = some 0x48 := by
  decide

/-- C9 counterexample: P3T1755 does not derive from PCT2075 (its base
class is LM75B) and its register enum has no Tidle member. -/
theorem p3t1755_not_derived_from_pct2075 :
    parent Variant.P3T1755 ≠ some Variant.PCT2075
    ∧ RegName.Tidle ∉ reg_enum Variant.P3T1755 := by
  decide

/-- C9 amended: the hierarchy is a tree, not a single chain: LM75B
derives from the abstract TempSensor base, PCT2075 and P3T1755 each
derive directly from LM75B, and P3T1085 derives from P3T1755; PCT2075
has the Tidle register while P3T1755 does not. -/
theorem inheritance_tree_per_header :
    parent Variant.LM75B = some Variant.TempSensor
    ∧ parent Variant.PCT2075 = some Variant.LM75B
    ∧ parent Variant.P3T1755 = some Variant.LM75B
    ∧ parent Variant.P3T1085 = some Variant.P3T1755
    ∧ RegName.Tidle ∈ reg_enum Variant.PCT2075
    ∧ RegName.Tidle ∉ reg_enum Variant.P3T1755 := by
  decide

/-- C10: the two public constructors of P3T1755 use different default
addresses, 0x98 >> 1 = 0x4C for the address-only constructor and
0x90 >> 1 = 0x48 for the TwoWire constructor, the latter coinciding
with the base-family default of LM75B. -/
theorem p3t1755_ctor_default_addresses :
    default_address Variant.P3T1755 = some (0x98 >>> 1)
    ∧ (0x98 >>> 1 : Nat) = 0x4C
    ∧ default_address_wire Variant.P3T1755 = some (0x90 >>> 1)
    ∧ (0x90 >>> 1 : Nat) = 0x48
    ∧ default_address_wire Variant.P3T1755 = default_address Variant.LM75B := by
  decide

/-! ## Claims about the modelled operations -/

/-- C1: for every pair of Celsius inputs, thresholds writes the encoding
of the numerically larger value to the shutdown/high register and the
encoding of the smaller one to the hysteresis/low register, for both the
LM75B variant (9-bit, Tos/Thyst) and the P3T1755 variant (12-bit,
T_HIGH/T_LOW), and swapping the two arguments produces an identical
register outcome. -/
theorem thresholds_max_to_shutdown_min_to_hyst (v0 v1 : ℚ) (r : RegFile) :
    LM75B.thresholds v0 v1 r LM75B.Tos = encode 9 (max v0 v1)
    ∧ LM75B.thresholds v0 v1 r LM75B.Thyst = encode 9 (min v0 v1)
    ∧ LM75B.thresholds v0 v1 r = LM75B.thresholds v1 v0 r
    ∧ P3T1755.thresholds v0 v1 r P3T1755.T_HIGH = encode 12 (max v0 v1)
    ∧ P3T1755.thresholds v0 v1 r P3T1755.T_LOW = encode 12 (min v0 v1)
    ∧ P3T1755.thresholds v0 v1 r = P3T1755.thresholds v1 v0 r := by
  refine ⟨?_, ?_, ?_, ?_, ?_, ?_⟩
  · simp [LM75B.thresholds, set_thresholds, writeReg, LM75B.Tos, LM75B.Thyst]
  · simp [LM75B.thresholds, set_thresholds, writeReg, LM75B.Thyst]
  · unfold LM75B.thresholds set_thresholds
    rw [max_comm v0 v1, min_comm v0 v1]
  · simp [P3T1755.thresholds, set_thresholds, writeReg, P3T1755.T_HIGH, P3T1755.T_LOW]
  · simp [P3T1755.thresholds, set_thresholds, writeReg, P3T1755.T_LOW]
  · unfold P3T1755.thresholds set_thresholds
    rw [max_comm v0 v1, min_comm v0 v1]

/-- C7: for every variant bit width and every device state, read
returns exactly what temp returns on that state. -/
theorem read_eq_temp (bw : Nat) (r : RegFile) : read bw r = temp bw r := rfl

/-- C8: when the transport fails on the second of the two writes of
thresholds, the first write's effect (the shutdown register holding the
encoded larger value) is not rolled back, the hysteresis register keeps
its old contents, and the surfaced error is the one of the failing
second write; symmetrically, a first-write failure surfaces that
write's error. -/
theorem thresholds_no_rollback_on_write_failure (bw : Nat) (v0 v1 : ℚ) (r : RegFile) :
    (thresholdsT false true bw LM75B.Tos LM75B.Thyst v0 v1 r).1 LM75B.Tos
        = encode bw (max v0 v1)
    ∧ (thresholdsT false true bw LM75B.Tos LM75B.Thyst v0 v1 r).1 LM75B.Thyst
        = r LM75B.Thyst
    ∧ (thresholdsT false true bw LM75B.Tos LM75B.Thyst v0 v1 r).2 = some 2
    ∧ (thresholdsT true false bw LM75B.Tos LM75B.Thyst v0 v1 r).2 = some 1 := by
  refine ⟨?_, ?_, ?_, ?_⟩ <;>
    simp [thresholdsT, writeReg, LM75B.Tos, LM75B.Thyst]

/-- Updating the mode bit leaves every other bit of a w-bit
configuration value unchanged. -/
lemma confWithMode_testBit (w b : Nat) (flag : mode) (c : Nat) (i : Nat)
    (hiw : i < w) (hib : i ≠ b) :
    (confWithMode w b flag c).testBit i = c.testBit i := by
  have h2 : (2 ^ b).testBit i = false := Nat.testBit_two_pow_of_ne (Ne.symm hib)
  cases flag <;>
    simp [confWithMode, modeVal, Nat.testBit_or, Nat.testBit_and, Nat.testBit_xor,
      Nat.one_shiftLeft, Nat.testBit_two_pow_sub_one, hiw, h2, Nat.zero_testBit]

/-- The Conf register after os_mode holds the masked-and-ored update of
its previous contents. -/
lemma os_mode_conf (w b : Nat) (flag : mode) (r : RegFile) :
    os_mode w b flag r LM75B.Conf = confWithMode w b flag (r LM75B.Conf) := by
  simp [os_mode, writeReg]

/-- C4: os_mode is a read-modify-write that changes only the mode bit:
any single call, and in particular the sequence os_mode INTERRUPT then
os_mode COMPARATOR, leaves every configuration-register bit other than
the mode bit exactly as it was. -/
theorem os_mode_frame (w b : Nat) (flag : mode) (r : RegFile) (i : Nat)
    (hiw : i < w) (hib : i ≠ b) :
    ((os_mode w b flag r) LM75B.Conf).testBit i = (r LM75B.Conf).testBit i
    ∧ ((os_mode w b mode.COMPARATOR (os_mode w b mode.INTERRUPT r)) LM75B.Conf).testBit i
        = (r LM75B.Conf).testBit i := by
  constructor
  · rw [os_mode_conf]
    exact confWithMode_testBit w b flag (r LM75B.Conf) i hiw hib
  · rw [os_mode_conf, os_mode_conf]
    rw [confWithMode_testBit w b mode.COMPARATOR _ i hiw hib]
    exact confWithMode_testBit w b mode.INTERRUPT (r LM75B.Conf) i hiw hib

/-- Witness for os_mode_frame: an 8-bit configuration register holding
0xAB, mode bit at position 1, observed at bit 0. -/
theorem os_mode_frame_witness :
    (0 : Nat) < 8 ∧ (0 : Nat) ≠ 1
    ∧ (((os_mode 8 1 mode.COMPARATOR (os_mode 8 1 mode.INTERRUPT (fun _ => 0xAB)))
          LM75B.Conf).testBit 0
        = ((fun (_ : Nat) => (0xAB : Nat)) LM75B.Conf).testBit 0) :=
  ⟨by decide, by decide,
    (os_mode_frame 8 1 mode.INTERRUPT (fun _ => 0xAB) 0 (by decide) (by decide)).2⟩

/-- C5: clear returns true exactly when the FH flag was set in the Conf
register immediately before the call, and immediately afterwards the
flag reads false. -/
theorem clear_reports_and_resets_fh (w fh : Nat) (r : RegFile) (h : fh < w) :
    ((clear w fh r).1 = true ↔ (r LM75B.Conf).testBit fh = true)
    ∧ ((clear w fh r).2 LM75B.Conf).testBit fh = false := by
  constructor
  · simp [clear]
  · simp [clear, writeReg, Nat.testBit_and, Nat.testBit_xor, Nat.one_shiftLeft,
      Nat.testBit_two_pow_sub_one, Nat.testBit_two_pow_self, h]

/-- Witness for clear_reports_and_resets_fh: a 16-bit configuration
register with only the FH bit (position 15) set. -/
theorem clear_reports_and_resets_fh_witness :
    (15 : Nat) < 16
    ∧ (((clear 16 15 (fun _ => 0x8000)).1 = true
          ↔ ((fun (_ : Nat) => (0x8000 : Nat)) LM75B.Conf).testBit 15 = true)
       ∧ (((clear 16 15 (fun _ => 0x8000)).2 LM75B.Conf).testBit 15 = false)) :=
  ⟨by decide, clear_reports_and_resets_fh 16 15 (fun _ => 0x8000) (by decide)⟩

/-! ## Codec lemmas and the decode/encode claims -/

/-- For the 9-bit variant, decode is sign extension by Euclidean
division by 128 followed by scaling with 1/2. -/
lemma decode9_eq (raw : Nat) :
    decode 9 raw = ((toSigned16 raw / 128 : ℤ) : ℚ) * (1/2) := by
  unfold decode lsbWeight
  rw [show (16 - 9 : Nat) = 7 from rfl, show (9 - 8 : Nat) = 1 from rfl]
  rw [show ((2:Int) ^ 7) = 128 from rfl]
  rw [Int.fdiv_eq_ediv _ (by norm_num)]
  norm_num

/-- The sign-extended 9-bit field of a 16-bit raw value coincides with
the two's-complement reading of its top nine bits. -/
lemma toSigned16_ediv_eq_twosComplement (raw : Nat) (h : raw < 2 ^ 16) :
    toSigned16 raw / 128 = twosComplement 9 (raw >>> 7) := by
  rw [Nat.shiftRight_eq_div_pow]
  unfold toSigned16 twosComplement
  norm_num at h ⊢
  split <;> split <;> omega

/-- The sign-extended 9-bit field of any 16-bit raw value lies in
[-256, 256). -/
lemma ediv_bounds (raw : Nat) (h : raw < 2 ^ 16) :
    -256 ≤ toSigned16 raw / 128 ∧ toSigned16 raw / 128 < 256 := by
  norm_num at h
  unfold toSigned16
  split <;> constructor <;> omega

/-- Truncation toward zero is the identity on integers. -/
lemma truncTowardZero_intCast (f : ℤ) : truncTowardZero ((f : ℚ)) = f := by
  unfold truncTowardZero
  split <;> simp

/-- Encoding an exact multiple of the 9-bit LSB weight produces the
left-aligned 16-bit two's-complement pattern of its field. -/
lemma encode9_int (f : ℤ) :
    encode 9 ((f : ℚ) * (1/2)) = ((f * 128) % 65536).toNat := by
  unfold encode
  have hdiv : ((f : ℚ) * (1/2)) / lsbWeight 9 = (f : ℚ) := by
    norm_num [lsbWeight]
  rw [hdiv, truncTowardZero_intCast]
  norm_num

/-- Decoding the encoded pattern of a field in range recovers the exact
temperature. -/
lemma decode9_of_encoded (f : ℤ) (h1 : -256 ≤ f) (h2 : f < 256) :
    decode 9 (((f * 128) % 65536).toNat) = (f : ℚ) * (1/2) := by
  rw [decode9_eq]
  have key : toSigned16 (((f * 128) % 65536).toNat) / 128 = f := by
    unfold toSigned16
    split <;> omega
  rw [key]

/-- C2: for the base 9-bit left-aligned variant, decode reads the raw
16-bit value as the two's-complement value of its top nine bits scaled
by the LSB weight; in particular 0x4B00 decodes to 75, 0xC900 decodes
to the negative value -55, and the negative full-scale pattern 0x8000
decodes to -128 without wraparound. -/
theorem decode_signed_9bit (raw : Nat) (h : raw < 2 ^ 16) :
    decode 9 raw = ((twosComplement 9 (raw >>> 7) : ℤ) : ℚ) * lsbWeight 9
    ∧ decode 9 0x4B00 = 75
    ∧ decode 9 0xC900 = -55
    ∧ decode 9 0xC900 < 0
    ∧ decode 9 0x8000 = -128 := by
  refine ⟨?_, ?_, ?_, ?_, ?_⟩
  · have hint := toSigned16_ediv_eq_twosComplement raw h
    rw [decode9_eq raw, show lsbWeight 9 = 1/2 by norm_num [lsbWeight]]
    exact congrArg (fun z : ℤ => ((z : ℚ) * (1/2))) hint
  · rw [decode9_eq]; norm_num [toSigned16]
  · rw [decode9_eq]; norm_num [toSigned16]
  · rw [decode9_eq]; norm_num [toSigned16]
  · rw [decode9_eq]; norm_num [toSigned16]

/-- Witness for decode_signed_9bit at raw value 0x4B00. -/
theorem decode_signed_9bit_witness :
    (0x4B00 : Nat) < 2 ^ 16
    ∧ decode 9 0x4B00 = ((twosComplement 9 (0x4B00 >>> 7) : ℤ) : ℚ) * lsbWeight 9 :=
  ⟨by decide, (decode_signed_9bit 0x4B00 (by decide)).1⟩

/-- C3: for every 16-bit raw value, re-encoding the decoded 9-bit
temperature and decoding again reproduces the same temperature: encode
is an exact right inverse of decode at native resolution. -/
theorem decode_encode_decode_roundtrip (raw : Nat) (h : raw < 2 ^ 16) :
    decode 9 (encode 9 (decode 9 raw)) = decode 9 raw := by
  have hb := ediv_bounds raw h
  rw [decode9_eq raw, encode9_int, decode9_of_encoded _ hb.1 hb.2]

/-- Witness for decode_encode_decode_roundtrip at the negative example
raw value 0xC900. -/
theorem decode_encode_decode_roundtrip_witness :
    (0xC900 : Nat) < 2 ^ 16
    ∧ decode 9 (encode 9 (decode 9 0xC900)) = decode 9 0xC900 :=
  ⟨by decide, decode_encode_decode_roundtrip 0xC900 (by decide)⟩
